import Mathlib

/-!
# Verification of the audio file player node

Shallow embedding of `src/scripts/play_file_server.py` and proofs about
it.  Python strings are modelled as `List Char`, Python `None` as
`Option.none`, a raised exception that a function does not catch as an
`Option.none` result of the embedded function.  Process handles keep
the cached return code (`ShellCmd.retcode` in the source) separate from
the actual state of the operating-system child process, so that the
caching behaviour of `get_retcode` and the overwriting behaviour of
`kill` are represented exactly.
-/

namespace AudioFilePlayer

/-- The character list of a string literal (Python strings are modelled
as lists of characters). -/
def chars (s : String) : List Char := s.data

/-- The single-quote character (ASCII 39), written via its code point. -/
def squote : Char := Char.ofNat 39

/-- The double-quote character (ASCII 34), written via its code point. -/
def dquote : Char := Char.ofNat 34

/-- Characters removed by Python `str.strip()` (whitespace). -/
def pyWhitespace (c : Char) : Bool :=
  c == ' ' || c == '\t' || c == '\n' || c == '\r' || c == '\x0b' || c == '\x0c'

/-- Decimal digit test, as Python `str.isdigit` behaves on ASCII. -/
def isPyDigit (c : Char) : Bool := '0' ≤ c && c ≤ '9'

/-- Value of a list of decimal digit characters. -/
def digitsVal (l : List Char) : Nat :=
  l.foldl (fun a c => a * 10 + (c.toNat - 48)) 0

/-- All characters are decimal digits. -/
def allDigits (l : List Char) : Bool := l.all isPyDigit

/-- Python `str.strip()`: drop whitespace from both ends. -/
def pyStrip (l : List Char) : List Char :=
  ((l.dropWhile pyWhitespace).reverse.dropWhile pyWhitespace).reverse

/-- The digits branch of Python `int()`: a non-empty run of decimal
digits parses to its value, anything else raises `ValueError` (`none`). -/
def pyNatOfDigits (l : List Char) : Option Int :=
  if l ≠ [] ∧ allDigits l = true then some ((digitsVal l : Nat) : Int) else none

/-- Python `int(s)` on a string: surrounding whitespace is ignored, an
optional sign precedes a non-empty digit run; any other shape raises
`ValueError`, modelled as `none`. -/
def pyInt (l : List Char) : Option Int :=
  match pyStrip l with
  | [] => none
  | c :: rest =>
    if c == '+' then pyNatOfDigits rest
    else if c == '-' then (pyNatOfDigits rest).map (fun n => -n)
    else pyNatOfDigits (c :: rest)

/-!
## ShellCmd (`play_file_server.py` lines 14-58)

`retcode` is the cached field set by `get_retcode` and `kill`;
`osStatus` is the state of the underlying child process: `none` while
it is running, `some e` once it has terminated with status `e`.
-/

/-- State of a `ShellCmd` handle: the cached `self.retcode` and the
status of the operating-system process (`none` = still running). -/
structure ShellCmd where
  retcode : Option Int
  osStatus : Option Int
deriving DecidableEq

/-- A freshly spawned handle (lines 17-24): no cached return code, the
child process is running. -/
def newProc : ShellCmd := ⟨none, none⟩

/-- `get_retcode` (lines 41-45): if no return code is cached, poll the
process and cache the answer; returns the reported code (or `none` when
still running) together with the updated handle. -/
def get_retcode (c : ShellCmd) : Option Int × ShellCmd :=
  match c.retcode with
  | some r => (some r, c)
  | none => (c.osStatus, { c with retcode := c.osStatus })

/-- `is_done` (lines 47-48): the reported return code is not `None`. -/
def is_done_val (c : ShellCmd) : Bool := (get_retcode c).1.isSome

/-- `is_succeeded` (lines 50-53): the reported return code equals 0. -/
def is_succeeded_val (c : ShellCmd) : Bool := (get_retcode c).1 == some 0

/-- `kill` (lines 55-58): unconditionally caches `retcode = -1`, sends
SIGTERM to the process group and reaps the child.  A process that was
still running terminates from the signal (status modelled as `-15`);
one that had already terminated keeps its status. -/
def kill (c : ShellCmd) : ShellCmd :=
  { retcode := some (-1), osStatus := some (c.osStatus.getD (-15)) }

/-- The child process of the handle is still alive (not yet
terminated). -/
def aliveProc (c : ShellCmd) : Bool := c.osStatus.isNone

/-- Handle well-formedness: a cached return code only ever comes from a
terminated process (`get_retcode` caches `poll`, `kill` terminates),
so a handle with a cached code has a terminated child. -/
def WFproc (c : ShellCmd) : Prop := c.retcode.isSome → c.osStatus.isSome

/-- Observations a client can perform on a handle after it exists:
polling (via `get_retcode`/`is_done`/`is_succeeded`) or killing. -/
inductive CmdOp where
  | poll : CmdOp
  | killOp : CmdOp
deriving DecidableEq

/-- Apply one observation to a handle. -/
def applyCmdOp (c : ShellCmd) : CmdOp → ShellCmd
  | CmdOp.poll => (get_retcode c).2
  | CmdOp.killOp => kill c

/-- Apply a sequence of observations to a handle. -/
def applyCmdOps (c : ShellCmd) (ops : List CmdOp) : ShellCmd :=
  ops.foldl applyCmdOp c

example : is_done_val (kill newProc) = true := by decide
example : is_succeeded_val (kill ⟨none, some 0⟩) = false := by decide
example : (get_retcode ⟨none, some 7⟩).1 = some 7 := by decide

/-!
## Volume parsing (`get_current_volume`, lines 180-201)

The source finds the first `%` in the mixer stdout, slices the three
characters before it with Python slice semantics (a negative start
index wraps to the end of the string), removes `[`, strips whitespace
and parses the remainder with `int()`.  Any failure (`str.index`
finding no `%`, or `int()` on a non-numeric remainder) raises
`ValueError`, which nothing in the function catches: modelled as
`none`.
-/

/-- The start index of the Python slice `output[pct_idx - 3 : pct_idx]`
(line 195): for `pct_idx < 3` the start `pct_idx - 3` is negative and
Python counts it from the end of the string, clamped below at 0. -/
def pctStart (output : List Char) (pct_idx : Nat) : Nat :=
  if pct_idx < 3 then
    (if output.length + pct_idx < 3 then 0 else output.length + pct_idx - 3)
  else pct_idx - 3

/-- `get_current_volume` (lines 180-201), from the captured stdout of
the mixer query command to the parsed percentage; `none` models the
uncaught `ValueError` from `str.index` or `int()`. -/
def get_current_volume (output : List Char) : Option Int :=
  match output.findIdx? (fun c => c == '%') with
  | none => none
  | some pct_idx =>
    pyInt (pyStrip (((output.drop (pctStart output pct_idx)).take
      (pct_idx - pctStart output pct_idx)).filter (fun c => c != '[')))

/-- The token the parser works on when the first `%` sits at index
`i ≥ 3`: the three preceding characters with `[` removed and
whitespace stripped. -/
def pctTokenAt (output : List Char) (i : Nat) : List Char :=
  pyStrip (((output.drop (i - 3)).take 3).filter (fun c => c != '['))

/-- `volume_cb` clamping (lines 203-209): requested value above 100 is
applied as 100, below 0 as 0, otherwise unchanged. -/
def volume_cb_to_pct (d : Int) : Int :=
  if d > 100 then 100 else if d < 0 then 0 else d

example : get_current_volume (chars ("Mono: Playback 44 [51%] [-32.25dB] [on]")) = some 51 := by
  decide
example : get_current_volume (chars ("no percent here")) = none := by decide
example : get_current_volume (chars ("[5%] [on]")) = none := by decide
example : get_current_volume (chars ("[999%]")) = some 999 := by decide

/-!
## Player node state (`AudioFilePlayer`, lines 75-228)

`current` is `self.current_playing_process`; `previous` holds the
handles that were superseded by a later `play_audio_file` call (their
child processes keep whatever state they had).  `volume_timer` models
whether `self.volume_timer` is set (lines 115, 219-228); `liveTimers`
counts every `rospy.Timer` currently registered and running: the one
referenced by `self.volume_timer` plus every timer created at line 174,
which is stored in `self.timer`, overwritten by the next call and never
shut down.  `num_peers` is `VolumeListener.num_peers` (lines 60-73) and
`curr_vol` is `self.curr_vol`.
-/

/-- State of the `AudioFilePlayer` node together with its
`VolumeListener`. -/
structure PlayerState where
  current : Option ShellCmd
  previous : List ShellCmd
  volume_timer : Bool
  liveTimers : Nat
  num_peers : Nat
  curr_vol : Int
deriving DecidableEq

/-- The state right after `__init__` (lines 76-117): no playing
process, no volume timer, no listeners. -/
def initState : PlayerState :=
  { current := none, previous := [], volume_timer := false,
    liveTimers := 0, num_peers := 0, curr_vol := 0 }

/-- Number of live child player processes spawned by the node. -/
def liveChildren (s : PlayerState) : Nat :=
  (s.current.toList ++ s.previous).countP aliveProc

/-- `ShellCmd.__del__` (lines 26-31), state part: when the last
reference to a handle is dropped, the destructor kills the child if
`is_done()` reports false (the `is_done` call goes through
`get_retcode` and caches the poll result). -/
def finalizeHandle (c : ShellCmd) : ShellCmd :=
  let rc := get_retcode c
  if rc.1.isSome then rc.2 else kill rc.2

/-- The instant inside line 168 after `ShellCmd(full_command)` has
spawned the new process and the reference has been rebound, but before
CPython finalizes the dropped old handle: the superseded child is still
in whatever state it had.  Line 174 has registered one more 1-second
`rospy.Timer`; the previous timer object in `self.timer` is never shut
down, so it stays registered. -/
def play_spawn (s : PlayerState) : PlayerState :=
  { s with current := some newProc,
           previous := s.current.toList ++ s.previous,
           liveTimers := s.liveTimers + 1 }

/-- `play_audio_file` (lines 161-174), process and timer dimension: a
fresh process is spawned and bound over the old handle reference (line
168); the rebinding drops the last reference to the superseded handle,
so CPython immediately runs `ShellCmd.__del__` (lines 26-31) on it,
which kills its child if it was not done — after the spawn, not before
it.  Line 174 registers one more 1-second `rospy.Timer`; the previous
timer object in `self.timer` is never shut down, so it stays
registered. -/
def play_audio_file (s : PlayerState) : PlayerState :=
  { s with current := some newProc,
           previous := (s.current.map finalizeHandle).toList ++ s.previous,
           liveTimers := s.liveTimers + 1 }

/-- Quote stripping in `play_audio_file` (lines 163-164): all
single-quote characters, then all double-quote characters, are removed
from the requested path. -/
def sanitizePath (p : List Char) : List Char :=
  (p.filter (fun c => c != squote)).filter (fun c => c != dquote)

/-- The command line built at line 165:
`command + " " + flags + " '" + sanitized_path + "'"`. -/
def full_command (command flags p : List Char) : List Char :=
  command ++ [' '] ++ flags ++ [' ', squote] ++ sanitizePath p ++ [squote]

/-- The kill guard of `topic_cb` (lines 156-158): if a current process
exists and `is_done()` reports false, kill it.  The `is_done` call goes
through `get_retcode` and caches the poll result, which the model
threads through. -/
def topic_cb_kill (s : PlayerState) : PlayerState :=
  match s.current with
  | none => s
  | some c =>
    let rc := get_retcode c
    if rc.1.isSome then { s with current := some rc.2 }
    else { s with current := some (kill rc.2) }

/-- `topic_cb` (lines 155-159): the kill guard, then `play_audio_file`. -/
def topic_cb (s : PlayerState) : PlayerState :=
  play_audio_file (topic_cb_kill s)

/-- The start of `as_cb` (lines 128-130): the execute callback records
the start time and calls `play_audio_file` directly, with no kill of a
live prior process. -/
def as_cb_start (s : PlayerState) : PlayerState := play_audio_file s

/-- `curr_vol_cb` (lines 176-178): refresh `self.curr_vol` from
`get_current_volume` on the given mixer stdout and publish it; an
exception raised by the parse propagates out of the timer callback
(`none`). -/
def curr_vol_cb (output : List Char) (s : PlayerState) : Option PlayerState :=
  (get_current_volume output).map (fun v => { s with curr_vol := v })

/-- `enable_volume_service` (lines 219-222): registers a timer only when
`self.volume_timer` is not set. -/
def enable_volume_service (s : PlayerState) : PlayerState :=
  if s.volume_timer then s
  else { s with volume_timer := true, liveTimers := s.liveTimers + 1 }

/-- `disable_volume_servce` (lines 224-228): shuts the timer down and
clears the reference only when `self.volume_timer` is set. -/
def disable_volume_servce (s : PlayerState) : PlayerState :=
  if s.volume_timer then
    { s with volume_timer := false, liveTimers := s.liveTimers - 1 }
  else s

/-- `VolumeListener.peer_subscribe` (lines 65-68): enable the service on
the 0 to 1 transition, then increment the count. -/
def peer_subscribe (s : PlayerState) : PlayerState :=
  let s1 := if s.num_peers = 0 then enable_volume_service s else s
  { s1 with num_peers := s1.num_peers + 1 }

/-- `VolumeListener.peer_unsubscribe` (lines 70-73): store the reported
count and disable the service when it reached 0. -/
def peer_unsubscribe (n : Nat) (s : PlayerState) : PlayerState :=
  let s1 := { s with num_peers := n }
  if n = 0 then disable_volume_servce s1 else s1

/-- Listener events delivered by the subscription machinery. -/
inductive LOp where
  | join : LOp
  | leave : Nat → LOp
deriving DecidableEq

/-- Apply one listener event. -/
def applyLOp (s : PlayerState) : LOp → PlayerState
  | LOp.join => peer_subscribe s
  | LOp.leave n => peer_unsubscribe n s

/-- Apply a sequence of listener events. -/
def applyLOps (s : PlayerState) (ops : List LOp) : PlayerState :=
  ops.foldl applyLOp s

/-- A listener event trace is valid from count `k` when every `leave`
reports the count after an actual peer left (strictly below the count
before it). -/
def validFrom (k : Nat) : List LOp → Bool
  | [] => true
  | LOp.join :: t => validFrom (k + 1) t
  | LOp.leave n :: t => decide (n < k) && validFrom n t

/-- The gate invariant of the listener path: the timer reference is set
exactly when the count is positive, and then exactly one timer is
registered. -/
def GateInv (s : PlayerState) : Prop :=
  s.volume_timer = decide (0 < s.num_peers) ∧
    s.liveTimers = (if s.volume_timer then 1 else 0)

example : liveChildren (play_spawn (topic_cb initState)) = 2 := by decide
example : liveChildren (as_cb_start (topic_cb initState)) = 1 := by decide
example : (play_audio_file (peer_subscribe initState)).liveTimers = 2 := by decide
example : curr_vol_cb (chars ("[999%]")) initState =
    some { initState with curr_vol := 999 } := by decide

/-!
## Action goal finalization (`as_cb` lines 128-153, `as_preempt_cb`
lines 119-126)

A `Session` is one action goal being executed: the playing handle
(`self.current_playing_process`), the preempt-request flag of the
underlying `SimpleActionServer` (set by the action machinery when a
cancel arrives, still set after `set_preempted` until the next goal is
accepted), and the terminal result registered with the action server.
`as_cb_finalize` is the tail of `as_cb` after the feedback loop: the
`is_succeeded()` test (line 142), the `is_preempt_requested()` guard
(line 147) and the three terminal outcomes.
-/

/-- A terminal action result, as registered with the action server. -/
inductive ASResult where
  | Succeeded : Int → ASResult
  | Preempted : List Char → ASResult
  | Aborted : List Char → ASResult
deriving DecidableEq

/-- One action goal execution in flight. -/
structure Session where
  proc : ShellCmd
  preemptRequested : Bool
  result : Option ASResult
deriving DecidableEq

/-- `as_preempt_cb` (lines 119-126) on a session whose playing process
exists: kill the process and register the goal as preempted; the
preempt-request flag of the action server is set by the cancel that
triggered this callback. -/
def as_preempt_cb (s : Session) : Session :=
  { proc := kill s.proc, preemptRequested := true,
    result := some (ASResult.Preempted (chars ("Got a cancel request."))) }

/-- The tail of `as_cb` (lines 140-153): after the feedback loop,
`final_time = time.time()` is taken and, if `is_succeeded()`, the goal
succeeds with `total_time = Duration(final_time)` — the absolute
timestamp, not the time since `initial_time`; otherwise, if a preempt
was requested the callback returns and leaves the result registered by
the preempt callback; otherwise the goal aborts with the concatenated
stderr and stdout. -/
def as_cb_finalize (s : Session) (final_time : Int)
    (stderrText stdoutText : List Char) : Session :=
  let rc := get_retcode s.proc
  if rc.1 == some 0 then
    { s with proc := rc.2, result := some (ASResult.Succeeded final_time) }
  else if s.preemptRequested then { s with proc := rc.2 }
  else
    { s with proc := rc.2,
             result := some (ASResult.Aborted
               (chars ("stderr: ") ++ stderrText ++
                chars ("\nstdout: ") ++ stdoutText)) }

example :
    (as_cb_finalize (as_preempt_cb ⟨newProc, false, none⟩) 1005 [] []).result =
      some (ASResult.Preempted (chars ("Got a cancel request."))) := by decide
example :
    (as_cb_finalize ⟨⟨some 0, some 0⟩, false, none⟩ 1005 [] []).result =
      some (ASResult.Succeeded 1005) := by decide

/-!
## Helper lemmas
-/

/-- `dropWhile` leaves a list unchanged when no element satisfies the
predicate. -/
lemma dropWhile_eq_self_of_all {p : Char → Bool} {l : List Char}
    (h : ∀ c ∈ l, p c = false) : l.dropWhile p = l := by
  cases l with
  | nil => rfl
  | cons c t => simp [List.dropWhile, h c (by simp)]

/-- Stripping a list without whitespace is the identity. -/
lemma pyStrip_eq_self_of_all {l : List Char}
    (h : ∀ c ∈ l, pyWhitespace c = false) : pyStrip l = l := by
  unfold pyStrip
  rw [dropWhile_eq_self_of_all h,
    dropWhile_eq_self_of_all (fun c hc => h c (List.mem_reverse.mp hc)),
    List.reverse_reverse]

/-- A decimal digit is not whitespace. -/
lemma pyWhitespace_eq_false_of_digit {c : Char} (h : isPyDigit c = true) :
    pyWhitespace c = false := by
  simp only [isPyDigit, Bool.and_eq_true, decide_eq_true_eq] at h
  simp only [pyWhitespace, Bool.or_eq_false_iff, beq_eq_false_iff_ne, ne_eq]
  refine ⟨⟨⟨⟨⟨?_, ?_⟩, ?_⟩, ?_⟩, ?_⟩, ?_⟩ <;>
    rintro rfl <;> exact absurd h.1 (by decide)

/-- A decimal digit is not a plus sign. -/
lemma digit_ne_plus {c : Char} (h : isPyDigit c = true) : (c == '+') = false := by
  simp only [isPyDigit, Bool.and_eq_true, decide_eq_true_eq] at h
  simp only [beq_eq_false_iff_ne, ne_eq]
  rintro rfl; exact absurd h.1 (by decide)

/-- A decimal digit is not a minus sign. -/
lemma digit_ne_minus {c : Char} (h : isPyDigit c = true) : (c == '-') = false := by
  simp only [isPyDigit, Bool.and_eq_true, decide_eq_true_eq] at h
  simp only [beq_eq_false_iff_ne, ne_eq]
  rintro rfl; exact absurd h.1 (by decide)

/-- `pyInt` on a non-empty all-digit token returns its decimal value. -/
lemma pyInt_of_digits {t : List Char} (hne : t ≠ [])
    (hdig : allDigits t = true) :
    pyInt t = some ((digitsVal t : Nat) : Int) := by
  have hall : ∀ c ∈ t, isPyDigit c = true := by
    simpa [allDigits, List.all_eq_true] using hdig
  have hfix : pyStrip t = t :=
    pyStrip_eq_self_of_all fun c hc => pyWhitespace_eq_false_of_digit (hall c hc)
  unfold pyInt
  rw [hfix]
  cases t with
  | nil => exact absurd rfl hne
  | cons c rest =>
    have hc : isPyDigit c = true := hall c (by simp)
    dsimp only
    rw [digit_ne_plus hc, digit_ne_minus hc]
    simp only [Bool.false_eq_true, if_false, pyNatOfDigits, ne_eq,
      reduceCtorEq, not_false_eq_true, hdig, and_true, if_true]

/-!
## Claim theorems
-/

/-- Claim C1: for every playback session, if a cancel arrives before the
player process exits, the terminal outcome registered with the action
server is the preempted (cancelled) one and never the aborted (failure)
one, even though the killed process reports a nonzero return code: the
preempt flag is the tie-break checked before finalizing, so `as_cb`
returns without emitting a failure result. -/
theorem c1_cancel_yields_cancelled_not_failure (s : Session) (final_time : Int)
    (stderrText stdoutText : List Char) :
    (as_cb_finalize (as_preempt_cb s) final_time stderrText stdoutText).result =
      some (ASResult.Preempted (chars ("Got a cancel request."))) ∧
    ∀ reason,
      (as_cb_finalize (as_preempt_cb s) final_time stderrText stdoutText).result ≠
        some (ASResult.Aborted reason) := by
  have hres :
      (as_cb_finalize (as_preempt_cb s) final_time stderrText stdoutText).result =
        some (ASResult.Preempted (chars ("Got a cancel request."))) := rfl
  refine ⟨hres, fun reason h => ?_⟩
  rw [hres] at h
  exact ASResult.noConfusion (Option.some.inj h)

/-- Claim C3, counterexample: a handle already observed `Succeeded`
(cached return code 0) is not left alone by `kill`: the kill overwrites
the cached code with `-1`, so the observed state reverts from
`Succeeded` to `Failed` and the handle changes — killing an
already-completed handle is not a no-op. -/
theorem c3_counterexample :
    is_succeeded_val ⟨some 0, some 0⟩ = true ∧
    is_succeeded_val (kill ⟨some 0, some 0⟩) = false ∧
    kill ⟨some 0, some 0⟩ ≠ (⟨some 0, some 0⟩ : ShellCmd) := by decide

/-- Claim C3, amended: under polling alone an observed terminal state
never changes (the first reported return code is cached and every later
`get_retcode` reports it again); `kill` is idempotent as a state
transformer (a second kill changes nothing); but `kill` unconditionally
marks the handle as a synthetic failure with return code `-1`,
overwriting even an observed success — it is not a no-op on an
already-completed handle. -/
theorem c3_amended_poll_stable_kill_overwrites :
    (∀ (c : ShellCmd) (r : Int), (get_retcode c).1 = some r →
      (get_retcode (get_retcode c).2).1 = some r) ∧
    (∀ c : ShellCmd, kill (kill c) = kill c) ∧
    (∀ c : ShellCmd, (kill c).retcode = some (-1)) := by
  refine ⟨?_, ?_, fun c => rfl⟩
  · intro c r h
    cases hc : c.retcode with
    | some r0 =>
      simp only [get_retcode, hc] at h ⊢
      exact h
    | none =>
      simp only [get_retcode, hc] at h
      simp [get_retcode, hc, h]
  · intro c
    simp [kill]

/-- Witness for the amended C3 theorem at a concrete handle: a handle
whose process exited with 0 keeps reporting 0 across a second poll. -/
theorem c3_amended_witness :
    (get_retcode (get_retcode ⟨none, some 0⟩).2).1 = some 0 :=
  c3_amended_poll_stable_kill_overwrites.1 ⟨none, some 0⟩ 0 (by decide)

/-- Claim C6: the code is wrong where the claim describes the intent.
On success the result carries `Duration(final_time)` where `final_time`
is the absolute `time.time()` timestamp, not the elapsed time since the
start of the session: for a session started at time 1000 finishing at
time 1005 the reported total time is 1005, not the elapsed 5. -/
theorem c6_total_time_is_absolute_timestamp :
    (as_cb_finalize ⟨⟨some 0, some 0⟩, false, none⟩ 1005 [] []).result =
      some (ASResult.Succeeded 1005) ∧
    (1005 : Int) ≠ 1005 - 1000 := by decide

/-- Claim C10: after `kill` the handle reports done and not succeeded —
the cached synthetic return code `-1` — and no later sequence of polls
or kills ever makes it report success again. -/
theorem c10_killed_never_reported_success (c : ShellCmd) (ops : List CmdOp) :
    is_done_val (applyCmdOps (kill c) ops) = true ∧
    is_succeeded_val (applyCmdOps (kill c) ops) = false ∧
    (kill c).retcode = some (-1) := by
  have key : ∀ (l : List CmdOp) (d : ShellCmd), d.retcode = some (-1) →
      (applyCmdOps d l).retcode = some (-1) := by
    intro l
    induction l with
    | nil => intro d hd; exact hd
    | cons op t ih =>
      intro d hd
      have hstep : (applyCmdOp d op).retcode = some (-1) := by
        cases op with
        | poll => simp [applyCmdOp, get_retcode, hd]
        | killOp => rfl
      simpa [applyCmdOps, List.foldl_cons] using ih (applyCmdOp d op) hstep
  have hr := key ops (kill c) rfl
  refine ⟨?_, ?_, rfl⟩
  · simp [is_done_val, get_retcode, hr]
  · simp [is_succeeded_val, get_retcode, hr]

/-- A well-formed handle is dead after its destructor ran: either the
poll reports a code (so the child had terminated) or the destructor
kills it. -/
lemma aliveProc_finalizeHandle_of_wf {c : ShellCmd} (h : WFproc c) :
    aliveProc (finalizeHandle c) = false := by
  unfold finalizeHandle
  cases hrc : c.retcode with
  | some r =>
    have hos : c.osStatus.isSome := h (by simp [hrc])
    cases hso : c.osStatus with
    | none => rw [hso] at hos; simp at hos
    | some e => simp [get_retcode, hrc, aliveProc, hso]
  | none =>
    cases hso : c.osStatus with
    | none => simp [get_retcode, hrc, hso, kill, aliveProc]
    | some e => simp [get_retcode, hrc, hso, aliveProc]

/-- The destructor keeps a dead handle dead. -/
lemma aliveProc_finalizeHandle_of_dead {c : ShellCmd}
    (h : aliveProc c = false) : aliveProc (finalizeHandle c) = false := by
  unfold finalizeHandle
  cases hso : c.osStatus with
  | none => simp [aliveProc, hso] at h
  | some e => cases hrc : c.retcode <;> simp [get_retcode, hrc, hso, aliveProc]

/-- A dead handle is trivially well-formed. -/
lemma wfProc_of_dead {c : ShellCmd} (h : aliveProc c = false) : WFproc c := by
  intro _
  cases hso : c.osStatus with
  | none => simp [aliveProc, hso] at h
  | some e => simp [hso]

/-- Starting a playback from a state whose current handle is well-formed
and whose superseded handles are all dead leaves exactly one live child
— the current handle is finalized by the rebinding at line 168 — and
every superseded handle is dead. -/
lemma liveChildren_play_audio_file {s : PlayerState}
    (hcur : ∀ c, s.current = some c → WFproc c)
    (hprev : ∀ c ∈ s.previous, aliveProc c = false) :
    liveChildren (play_audio_file s) = 1 ∧
    ∀ c ∈ (play_audio_file s).previous, aliveProc c = false := by
  have hall : ∀ c ∈ (s.current.map finalizeHandle).toList ++ s.previous,
      aliveProc c = false := by
    intro c hc
    rcases List.mem_append.mp hc with h | h
    · cases ho : s.current with
      | none => rw [ho] at h; simp at h
      | some c0 =>
        rw [ho] at h
        simp only [Option.map_some', Option.toList_some,
          List.mem_singleton] at h
        exact h ▸ aliveProc_finalizeHandle_of_wf (hcur c0 ho)
    · exact hprev c h
  constructor
  · have hz : ((s.current.map finalizeHandle).toList ++
        s.previous).countP aliveProc = 0 := by
      rw [List.countP_eq_zero]
      intro a ha
      simp [hall a ha]
    simp [liveChildren, play_audio_file, List.countP_append, hz,
      List.countP_cons, aliveProc, newProc]
  · intro c hc
    exact hall c hc

/-- At the instant after the spawn, a state whose current handle and
superseded handles are all dead holds exactly one live child: the
freshly spawned one. -/
lemma liveChildren_play_spawn_of_dead {s : PlayerState}
    (hcur : ∀ c, s.current = some c → aliveProc c = false)
    (hprev : ∀ c ∈ s.previous, aliveProc c = false) :
    liveChildren (play_spawn s) = 1 := by
  have hall : ∀ c ∈ s.current.toList ++ s.previous, aliveProc c = false := by
    intro c hc
    rcases List.mem_append.mp hc with h | h
    · cases ho : s.current with
      | none => rw [ho] at h; simp at h
      | some c0 =>
        rw [ho] at h
        simp only [Option.toList_some, List.mem_singleton] at h
        exact h ▸ hcur c0 ho
    · exact hprev c h
  have hz : (s.current.toList ++ s.previous).countP aliveProc = 0 := by
    rw [List.countP_eq_zero]
    intro a ha
    simp [hall a ha]
  simp [liveChildren, play_spawn, List.countP_append, hz,
    List.countP_cons, aliveProc, newProc]

/-- The kill guard of `topic_cb` does not touch the superseded
handles. -/
lemma topic_cb_kill_previous (s : PlayerState) :
    (topic_cb_kill s).previous = s.previous := by
  unfold topic_cb_kill
  cases ho : s.current with
  | none => rfl
  | some c =>
    dsimp only
    by_cases hd : (get_retcode c).1.isSome = true
    · rw [if_pos hd]
    · rw [if_neg hd]

/-- After the kill guard of `topic_cb`, the current handle is dead:
either it had already terminated (well-formedness plus the cached poll)
or the guard killed it. -/
lemma topic_cb_kill_current_dead {s : PlayerState}
    (hwf : ∀ c, s.current = some c → WFproc c) :
    ∀ c, (topic_cb_kill s).current = some c → aliveProc c = false := by
  intro c0 hc0
  unfold topic_cb_kill at hc0
  cases ho : s.current with
  | none =>
    rw [ho] at hc0
    dsimp only at hc0
    rw [ho] at hc0
    exact Option.noConfusion hc0
  | some c =>
    rw [ho] at hc0
    dsimp only at hc0
    by_cases hd : (get_retcode c).1.isSome = true
    · rw [if_pos hd] at hc0
      dsimp only at hc0
      cases Option.some.inj hc0
      cases hrc : c.retcode with
      | some r =>
        have hos : c.osStatus.isSome := hwf c ho (by simp [hrc])
        cases hso : c.osStatus with
        | none => rw [hso] at hos; simp at hos
        | some e => simp [get_retcode, hrc, aliveProc, hso]
      | none =>
        simp only [get_retcode, hrc] at hd ⊢
        cases hso : c.osStatus with
        | none => rw [hso] at hd; simp at hd
        | some e => simp [aliveProc, hso]
    · rw [if_neg hd] at hc0
      dsimp only at hc0
      cases Option.some.inj hc0
      simp [kill, aliveProc]

/-- Claim C2, counterexample: with a topic-started process still
playing, an action goal spawns the new process before the prior one is
terminated — at the instant after line 168 has spawned and rebound,
before the destructor of the dropped handle runs, two child processes
are alive, refuting kill-and-reap-before-spawn and
at-every-instant-at-most-one.  The destructor then kills the superseded
child, so one live child remains after the start completes. -/
theorem c2_counterexample :
    liveChildren (topic_cb initState) = 1 ∧
    liveChildren (play_spawn (topic_cb initState)) = 2 ∧
    liveChildren (as_cb_start (topic_cb initState)) = 1 := by decide

/-- Claim C2, amended: after each start exactly one live child process
remains, on both the action-goal and the topic path — a superseded live
process is always killed and reaped, on the topic path by the explicit
guard before the spawn, on the action path only by the destructor of
the dropped handle reference after the new process has been spawned.
The ordering guarantee holds on the topic path (even at the instant
after the spawn only the new child is alive) but fails on the
action-goal path, where the new process is spawned before the prior one
is killed, so two children are transiently alive between the spawn and
the rebinding destructor (see the counterexample). -/
theorem c2_amended_one_live_child_ordering (s : PlayerState)
    (hwf : ∀ c, s.current = some c → WFproc c)
    (hprev : ∀ c ∈ s.previous, aliveProc c = false) :
    (liveChildren (as_cb_start s) = 1 ∧
      ∀ c ∈ (as_cb_start s).previous, aliveProc c = false) ∧
    (liveChildren (topic_cb s) = 1 ∧
      ∀ c ∈ (topic_cb s).previous, aliveProc c = false) ∧
    liveChildren (play_spawn (topic_cb_kill s)) = 1 := by
  have hkprev : ∀ c ∈ (topic_cb_kill s).previous, aliveProc c = false := by
    rw [topic_cb_kill_previous]
    exact hprev
  have hkdead := topic_cb_kill_current_dead hwf
  refine ⟨liveChildren_play_audio_file hwf hprev, ?_, ?_⟩
  · exact liveChildren_play_audio_file
      (fun c hc => wfProc_of_dead (hkdead c hc)) hkprev
  · exact liveChildren_play_spawn_of_dead hkdead hkprev

/-- Witness for the amended C2 theorem: from the initial state with one
live playing process, both an action start and a topic start leave
exactly one live child. -/
theorem c2_amended_witness :
    liveChildren (as_cb_start { initState with current := some newProc }) = 1 ∧
    liveChildren (topic_cb { initState with current := some newProc }) = 1 := by
  have h := c2_amended_one_live_child_ordering
    { initState with current := some newProc }
    (fun c hc => by cases Option.some.inj hc; intro h2; simp [newProc] at h2)
    (fun c hc => by simp [initState] at hc)
  exact ⟨h.1.1, h.2.1.1⟩

/-- Joining a listener preserves the gate invariant and increments the
count. -/
lemma peer_subscribe_gateInv {s : PlayerState} (h : GateInv s) :
    GateInv (peer_subscribe s) ∧ (peer_subscribe s).num_peers = s.num_peers + 1 := by
  obtain ⟨h1, h2⟩ := h
  by_cases h0 : s.num_peers = 0
  · have ht : s.volume_timer = false := by simp [h1, h0]
    rw [ht] at h2
    simp [peer_subscribe, enable_volume_service, GateInv, h0, ht, h2]
  · have ht : s.volume_timer = true := by
      simp [h1, Nat.pos_of_ne_zero h0]
    rw [ht] at h2
    simp [peer_subscribe, enable_volume_service, GateInv, h0, ht, h2,
      Nat.pos_of_ne_zero h0]

/-- A leave reporting a count strictly below the current one preserves
the gate invariant and stores the reported count. -/
lemma peer_unsubscribe_gateInv {s : PlayerState} {n : Nat} (h : GateInv s)
    (hn : n < s.num_peers) :
    GateInv (peer_unsubscribe n s) ∧ (peer_unsubscribe n s).num_peers = n := by
  obtain ⟨h1, h2⟩ := h
  have ht : s.volume_timer = true := by
    simp [h1, Nat.lt_of_le_of_lt (Nat.zero_le n) hn]
  rw [ht] at h2
  by_cases hz : n = 0
  · simp [peer_unsubscribe, disable_volume_servce, GateInv, hz, ht, h2]
  · simp [peer_unsubscribe, disable_volume_servce, GateInv, hz, ht, h2,
      Nat.pos_of_ne_zero hz]

/-- The gate invariant is preserved along any valid listener trace. -/
lemma gateInv_applyLOps (ops : List LOp) : ∀ s : PlayerState, GateInv s →
    validFrom s.num_peers ops = true → GateInv (applyLOps s ops) := by
  induction ops with
  | nil => intro s h _; exact h
  | cons op t ih =>
    intro s h hv
    cases op with
    | join =>
      obtain ⟨h1, h2⟩ := peer_subscribe_gateInv h
      simp only [validFrom] at hv
      rw [← h2] at hv
      simpa [applyLOps, List.foldl_cons, applyLOp] using ih _ h1 hv
    | leave n =>
      simp only [validFrom, Bool.and_eq_true, decide_eq_true_eq] at hv
      obtain ⟨h1, h2⟩ := peer_unsubscribe_gateInv h hv.1
      rw [← h2] at hv
      simpa [applyLOps, List.foldl_cons, applyLOp] using ih _ h1 hv.2

/-- Claim C8, counterexample: one listener join followed by one playback
start leaves two concurrent 1-second polling timers registered — the
playback path registers a fresh timer without checking or stopping the
listener-driven one, so the no-double-registration property fails. -/
theorem c8_counterexample :
    (play_audio_file (peer_subscribe initState)).liveTimers = 2 := by decide

/-- Claim C8, amended: on the listener path alone the gate works as
specified — along any valid trace of joins and leaves from the initial
state the timer reference is set exactly when the listener count is
positive and then exactly one timer is registered, and enable and
disable are idempotent no-ops in the target state.  The playback path,
however, registers an additional timer on every start without shutting
the previous one down, so mixed traces register concurrent timers, as
the counterexample shows. -/
theorem c8_amended_listener_gate :
    (∀ ops : List LOp, validFrom initState.num_peers ops = true →
      GateInv (applyLOps initState ops)) ∧
    (∀ s, enable_volume_service (enable_volume_service s) =
      enable_volume_service s) ∧
    (∀ s, disable_volume_servce (disable_volume_servce s) =
      disable_volume_servce s) := by
  refine ⟨fun ops hv => gateInv_applyLOps ops initState ⟨rfl, rfl⟩ hv, ?_, ?_⟩
  · intro s
    by_cases h : s.volume_timer <;>
      simp [enable_volume_service, h]
  · intro s
    by_cases h : s.volume_timer <;>
      simp [disable_volume_servce, h]

/-- Witness for the amended C8 theorem at a concrete trace: two joins
followed by two leaves down to zero end with the timer disabled and no
registered timer. -/
theorem c8_amended_witness :
    GateInv (applyLOps initState [LOp.join, LOp.join, LOp.leave 1, LOp.leave 0]) :=
  c8_amended_listener_gate.1 [LOp.join, LOp.join, LOp.leave 1, LOp.leave 0]
    (by decide)

/-- Claim C4, counterexample: on mixer stdout without a `%` token the
parse raises an uncaught `ValueError` (`str.index`), and the polling
callback `curr_vol_cb` has no handler, so the tick does not survive the
malformed reading — there is no recoverable parse-error path. -/
theorem c4_counterexample :
    get_current_volume (chars ("Simple mixer control Master,0")) = none ∧
    curr_vol_cb (chars ("Simple mixer control Master,0")) initState = none := by
  decide

/-- Claim C4, amended: when the stdout holds no `%` character, or the
text before the first `%` is not numeric (concrete instance below),
`get_current_volume` raises — modelled as no result — and the
exception propagates out of the timer callback `curr_vol_cb` instead of
being recovered as an unknown volume. -/
theorem c4_amended_parse_error_uncaught :
    (∀ (output : List Char) (s : PlayerState), (∀ c ∈ output, ¬ c = '%') →
      get_current_volume output = none ∧ curr_vol_cb output s = none) ∧
    get_current_volume (chars ("Mono: Playback [ab%]")) = none ∧
    curr_vol_cb (chars ("Mono: Playback [ab%]")) initState = none := by
  refine ⟨?_, by decide, by decide⟩
  intro output s h
  have hf : output.findIdx? (fun c => c == '%') = none := by
    refine List.findIdx?_eq_none_iff.mpr fun c hc => ?_
    simpa using h c hc
  constructor
  · simp [get_current_volume, hf]
  · simp [curr_vol_cb, get_current_volume, hf]

/-- Witness for the amended C4 theorem at a concrete `%`-free stdout. -/
theorem c4_amended_witness :
    get_current_volume (chars ("Limits: Playback 0 - 87")) = none ∧
    curr_vol_cb (chars ("Limits: Playback 0 - 87")) initState = none :=
  c4_amended_parse_error_uncaught.1 (chars ("Limits: Playback 0 - 87"))
    initState (by decide)

/-- Claim C5, counterexample: the command line built for the player
always wraps the path in two single-quote characters, so for a path
containing a quote the resulting command line still contains a
single-quote character — it is the sanitized path, not the command
line, that is quote-free. -/
theorem c5_counterexample :
    squote ∈ (chars ("my") ++ [squote] ++ chars ("file.wav")) ∧
    squote ∈ full_command (chars ("play")) []
      (chars ("my") ++ [squote] ++ chars ("file.wav")) := by decide

/-- Claim C5, amended: for every file path, stripping removes every
single- and double-quote character from the path, and when the
configured command and flags contain no quote characters the built
command line contains no double quote and exactly the two fixed
single quotes that wrap the sanitized path. -/
theorem c5_amended_sanitized_path_quote_free (command flags p : List Char)
    (hc1 : squote ∉ command) (hc2 : dquote ∉ command)
    (hf1 : squote ∉ flags) (hf2 : dquote ∉ flags) :
    squote ∉ sanitizePath p ∧ dquote ∉ sanitizePath p ∧
    (full_command command flags p).count squote = 2 ∧
    (full_command command flags p).count dquote = 0 := by
  have hs1 : squote ∉ sanitizePath p := by
    simp [sanitizePath, List.mem_filter]
  have hs2 : dquote ∉ sanitizePath p := by
    simp [sanitizePath, List.mem_filter]
  have e : full_command command flags p =
      command ++ ([' '] ++ (flags ++ ([' ', squote] ++
        (sanitizePath p ++ [squote])))) := by
    simp [full_command, List.append_assoc]
  refine ⟨hs1, hs2, ?_, ?_⟩
  · rw [e, List.count_append, List.count_append, List.count_append,
      List.count_append, List.count_append, List.count_eq_zero.mpr hc1,
      List.count_eq_zero.mpr hf1, List.count_eq_zero.mpr hs1]
    decide
  · rw [e, List.count_append, List.count_append, List.count_append,
      List.count_append, List.count_append, List.count_eq_zero.mpr hc2,
      List.count_eq_zero.mpr hf2, List.count_eq_zero.mpr hs2]
    decide

/-- Witness for the amended C5 theorem: with the default command and
empty flags, a path holding a double quote yields a command line with
exactly the two wrapping single quotes and no double quote. -/
theorem c5_amended_witness :
    (full_command (chars ("play")) []
       (chars ("my") ++ [dquote] ++ chars ("file.wav"))).count squote = 2 ∧
    (full_command (chars ("play")) []
       (chars ("my") ++ [dquote] ++ chars ("file.wav"))).count dquote = 0 :=
  ⟨(c5_amended_sanitized_path_quote_free (chars ("play")) []
      (chars ("my") ++ [dquote] ++ chars ("file.wav"))
      (by decide) (by decide) (by decide) (by decide)).2.2.1,
   (c5_amended_sanitized_path_quote_free (chars ("play")) []
      (chars ("my") ++ [dquote] ++ chars ("file.wav"))
      (by decide) (by decide) (by decide) (by decide)).2.2.2⟩

/-- Claim C7, counterexample: the stored volume does not always lie in
the range 0 to 100 — a mixer reading of 999 percent is stored as 999,
because the read path performs no clamping. -/
theorem c7_counterexample :
    curr_vol_cb (chars ("[999%]")) initState =
      some { initState with curr_vol := 999 } ∧
    ¬ ((999 : Int) ≤ 100) := by decide

/-- Claim C7, amended: the write path clamps every requested value to
the range 0 to 100 (150 becomes 100, -5 becomes 0, 42 stays 42), but
the read path stores whatever integer the mixer stdout parses to,
without clamping — so reads do not go through the clamping path and the
stored value is only bounded by the three-character parse window. -/
theorem c7_amended_writes_clamped_reads_raw :
    (∀ d : Int, 0 ≤ volume_cb_to_pct d ∧ volume_cb_to_pct d ≤ 100) ∧
    volume_cb_to_pct 150 = 100 ∧
    volume_cb_to_pct (-5) = 0 ∧
    volume_cb_to_pct 42 = 42 ∧
    (∀ (output : List Char) (s : PlayerState) (v : Int),
      get_current_volume output = some v →
      curr_vol_cb output s = some { s with curr_vol := v }) := by
  refine ⟨?_, by decide, by decide, by decide, ?_⟩
  · intro d
    unfold volume_cb_to_pct
    split
    · omega
    · split <;> omega
  · intro output s v h
    simp [curr_vol_cb, h]

/-- Witness for the amended C7 theorem: a 51 percent reading is stored
as 51, unclamped but in range. -/
theorem c7_amended_witness :
    curr_vol_cb (chars ("[51%]")) initState =
      some { initState with curr_vol := 51 } :=
  c7_amended_writes_clamped_reads_raw.2.2.2.2 (chars ("[51%]")) initState 51
    (by decide)

/-- Claim C9, counterexample: the stdout `[5%] [on]` contains a `%`
preceded by the one-digit numeric token `5` wrapped in `[`, yet the
parse raises instead of returning 5: the slice `output[pct_idx - 3 :
pct_idx]` has a negative start that Python wraps to the end of the
string, producing an empty slice and a `ValueError` from `int()`. -/
theorem c9_counterexample :
    get_current_volume (chars ("[5%] [on]")) = none := by decide

/-- Claim C9, amended: when the first `%` sits at index at least 3 and
the three characters before it, after removing `[` and stripping
whitespace, form a non-empty digit string, `get_current_volume` returns
its decimal value; a `%` within the first three characters breaks the
slice (see the counterexample). -/
theorem c9_amended_window_parse (output : List Char) (i : Nat)
    (hfind : output.findIdx? (fun c => c == '%') = some i)
    (h3 : 3 ≤ i)
    (hne : pctTokenAt output i ≠ [])
    (hdig : allDigits (pctTokenAt output i) = true) :
    get_current_volume output =
      some ((digitsVal (pctTokenAt output i) : Nat) : Int) := by
  simp only [get_current_volume, hfind]
  have hs : pctStart output i = i - 3 := by
    simp [pctStart, Nat.not_lt.mpr h3]
  rw [hs, show i - (i - 3) = 3 from by omega]
  exact pyInt_of_digits hne hdig

/-- Witness for the amended C9 theorem: the documented mixer line
parses to 51. -/
theorem c9_amended_witness :
    get_current_volume (chars ("Mono: Playback 44 [51%] [-32.25dB] [on]")) =
      some 51 :=
  (c9_amended_window_parse
    (chars ("Mono: Playback 44 [51%] [-32.25dB] [on]")) 21
    (by decide) (by decide) (by decide) (by decide)).trans (by decide)

end AudioFilePlayer
